import Mathlib

/-!
Shallow embedding of the MCP protocol engine of the Kali-Linux-Bleeding-Edge
MCP server (src/src/app.py): the tool registry, the JSON-RPC dispatch of the
POST endpoint `handle_mcp_request`, the SSE event stream, the health endpoint,
and the pure tool implementations the claims touch.  Python dicts are embedded
as association lists in insertion order; machine integers as Nat/Int; the
impure ingredients (wall-clock timestamps, the freshly generated UUID used
when a request carries no `id`, and the time/hash-dependent black-box tool
bodies) are passed in explicitly as parameters.
-/

namespace KaliMCP

/-- MCP protocol version constant (app.py, `MCP_VERSION`). -/
def MCP_VERSION : String := "2024-11-05"

/-- The seven capability flags of `SERVER_INFO["capabilities"]`. -/
structure Capabilities where
  bleeding_edge : Bool
  auto_updates : Bool
  experimental_tools : Bool
  gradio_interface : Bool
  mcp_integration : Bool
  unified_platform : Bool
  gemini_3_pro_preview : Bool
deriving DecidableEq

/-- `SERVER_INFO` (app.py): name, version, description and capabilities. -/
structure ServerRecord where
  name : String
  version : String
  description : String
  capabilities : Capabilities
deriving DecidableEq

/-- The process-wide `SERVER_INFO` constant of app.py. -/
def SERVER_INFO : ServerRecord :=
  { name := "darkdriftz-bleeding-edge-kali-mcp-unified"
    version := "3.0.0"
    description := "DarkDriftz\x27s Complete Bleeding Edge Kali Linux MCP Server - Unified HF Spaces + HuggingChat"
    capabilities :=
      { bleeding_edge := true, auto_updates := true, experimental_tools := true
        gradio_interface := true, mcp_integration := true, unified_platform := true
        gemini_3_pro_preview := true } }

/-- `PLATFORM_TYPE` constant of app.py. -/
def PLATFORM_TYPE : String := "Unified Hugging Face Spaces + MCP Server"

/-- One value of the arsenal dict returned by `get_kali_arsenal_data`:
count, description, bleeding-edge flag and tool list. -/
structure CategoryEntry where
  count : Nat
  description : String
  bleeding_edge_enhanced : Bool
  tools : List String
deriving DecidableEq

/-- The arsenal dict of `get_kali_arsenal_data` (app.py lines 104-264),
as an association list in the insertion order of the Python dict literal. -/
def get_kali_arsenal_data : List (String × CategoryEntry) :=
  [ ("Information Gathering",
     { count := 85
       description := "Complete reconnaissance and intelligence gathering tools"
       bleeding_edge_enhanced := true
       tools := ["nmap", "masscan", "zmap", "unicornscan", "dmitry", "netdiscover",
                 "nbtscan", "enum4linux", "smbclient", "rpcclient", "showmount",
                 "snmpwalk", "snmpcheck", "onesixtyone", "sipvicious", "whatweb",
                 "wafw00f", "httprint", "fierce", "dnsenum", "dnsrecon", "dnsmap",
                 "sublist3r", "theharvester", "metagoofil", "recon-ng", "maltego",
                 "subfinder", "httpx", "katana", "nuclei", "naabu", "dnsx",
                 "rustscan", "feroxbuster", "httpx-toolkit", "katana-crawler",
                 "interactsh", "notify", "chaos-client", "dnsprobe", "shuffledns"] }),
    ("Vulnerability Analysis",
     { count := 62
       description := "Advanced vulnerability scanning and analysis tools"
       bleeding_edge_enhanced := true
       tools := ["openvas", "nikto", "w3af", "skipfish", "wapiti", "sqlmap",
                 "commix", "bed", "lynis", "unix-privesc-check", "nuclei",
                 "linux-exploit-suggester", "windows-exploit-suggester",
                 "nuclei-templates", "neural-fuzzing", "ai-security-toolkit"] }),
    ("Web Applications",
     { count := 58
       description := "Complete web application security testing suite"
       bleeding_edge_enhanced := true
       tools := ["owasp-zap", "burpsuite", "webscarab", "proxystrike", "vega",
                 "sqlninja", "bbqsql", "jsql-injection", "hexorbase", "dirb",
                 "dirbuster", "gobuster", "feroxbuster", "ffuf", "wfuzz",
                 "cariddi", "gau", "waybackurls", "gf", "anew", "unfurl"] }),
    ("Password Attacks",
     { count := 42
       description := "Advanced password cracking and analysis tools"
       bleeding_edge_enhanced := true
       tools := ["john", "hashcat", "hydra", "medusa", "ncrack", "patator",
                 "crowbar", "cewl", "crunch", "cupp", "rsmangler", "wordlists",
                 "hashcat-utils-ng", "john-jumbo-ng", "maskprocessor-ng"] }),
    ("Wireless Attacks",
     { count := 38
       description := "Complete wireless security testing arsenal"
       bleeding_edge_enhanced := true
       tools := ["aircrack-ng", "airmon-ng", "airodump-ng", "aireplay-ng",
                 "wifite", "reaver", "bully", "pixiewps", "wash", "mdk3",
                 "wifipumpkin3", "eaphammer-ng", "wifi-arsenal", "bluetooth-arsenal"] }),
    ("Exploitation Tools",
     { count := 55
       description := "Advanced exploitation frameworks and tools"
       bleeding_edge_enhanced := true
       tools := ["metasploit-framework", "armitage", "empire", "covenant",
                 "sliver", "merlin", "pupy", "koadic", "veil", "shellter",
                 "sliver-client", "merlin-agent", "covenant-client", "havoc-framework"] }),
    ("Forensics",
     { count := 48
       description := "Digital forensics and incident response tools"
       bleeding_edge_enhanced := true
       tools := ["volatility", "autopsy", "sleuthkit", "foremost", "binwalk",
                 "bulk-extractor", "chkrootkit", "rkhunter", "aide", "ossec",
                 "volatility3", "autopsy-ng", "sleuthkit-ng", "yara-ng"] }),
    ("Reverse Engineering",
     { count := 35
       description := "Complete reverse engineering and analysis tools"
       bleeding_edge_enhanced := true
       tools := ["gdb", "radare2", "ida-free", "ghidra", "objdump", "strings",
                 "ltrace", "strace", "hexedit", "bless", "dhex", "okteta"] }),
    ("Hardware Hacking",
     { count := 28
       description := "Hardware security and IoT testing tools"
       bleeding_edge_enhanced := true
       tools := ["minicom", "screen", "picocom", "openocd", "avrdude",
                 "flashrom", "dediprog", "bus-pirate", "arduino", "platformio",
                 "iot-toolkit", "hardware-hacking-ng", "firmware-analysis-ng"] }),
    ("Crypto & Stego",
     { count := 32
       description := "Cryptography and steganography analysis tools"
       bleeding_edge_enhanced := true
       tools := ["hashcat", "john", "steghide", "outguess", "foremost",
                 "binwalk", "exiftool", "fcrackzip", "pdfcrack", "rarcrack"] }),
    ("Reporting Tools",
     { count := 25
       description := "Professional security assessment reporting"
       bleeding_edge_enhanced := true
       tools := ["cutycapt", "faraday", "dradis", "magictree", "case-file",
                 "maltego", "recordmydesktop", "kazam", "vokoscreen", "simplescreenrecorder"] }),
    ("Social Engineering",
     { count := 22
       description := "Social engineering and OSINT tools"
       bleeding_edge_enhanced := true
       tools := ["set", "beef", "king-phisher", "gophish", "evilginx2",
                 "catphish", "weeman", "blackeye", "shellphish", "zphisher",
                 "osint-toolkit-ng", "social-analyzer-ng", "sherlock-ng"] }),
    ("Sniffing & Spoofing",
     { count := 31
       description := "Network analysis and manipulation tools"
       bleeding_edge_enhanced := true
       tools := ["wireshark", "tshark", "tcpdump", "ettercap", "dsniff",
                 "arpspoof", "ettercap-ng", "bettercap", "mitmproxy", "sslstrip",
                 "packet-analysis-ng", "network-intercept-toolkit"] }) ]

/-- `BLEEDING_EDGE_CONFIG` (app.py lines 266-279). -/
structure BleedingEdgeConfig where
  enabled : Bool
  priority : String
  repositories : List String
  additional_tools_count : Nat
  update_frequency : String
  auto_sync : Bool
  experimental_features : Bool
deriving DecidableEq

/-- The `BLEEDING_EDGE_CONFIG` constant of app.py. -/
def BLEEDING_EDGE_CONFIG : BleedingEdgeConfig :=
  { enabled := true
    priority := "high"
    repositories := ["kali-bleeding-edge", "kali-experimental", "kali-dev"]
    additional_tools_count := 150
    update_frequency := "4_hours"
    auto_sync := true
    experimental_features := true }

/-- `get_total_tool_count` (app.py lines 352-356): sum of all category counts
plus the bleeding-edge additional-tools count. -/
def get_total_tool_count : Nat :=
  (get_kali_arsenal_data.map (fun p => p.2.count)).sum
    + BLEEDING_EDGE_CONFIG.additional_tools_count

/-- `get_standard_tool_count` (app.py lines 358-362). -/
def get_standard_tool_count : Nat :=
  (get_kali_arsenal_data.map (fun p => p.2.count)).sum

/-- `get_category_count` (app.py lines 364-368). -/
def get_category_count : Nat := get_kali_arsenal_data.length

/-- Python substring membership test `pat in s`, via `splitOn`: the pattern
occurs in `s` iff splitting on it produces more than one piece. -/
def strContains (s pat : String) : Bool := (s.splitOn pat).length > 1

/-- Python format `f"{i:2d}"`: decimal, right-aligned to width 2 with spaces. -/
def fmt2d (i : Nat) : String :=
  let s := toString i
  if s.length < 2 then " " ++ s else s

/-- The `bleeding_indicator` expression of `get_kali_tool_category` (line 393):
both arms of the conditional are the empty string. -/
def bleeding_indicator (tool : String) : String :=
  if (["ng", "toolkit", "arsenal"].any (fun keyword => strContains tool keyword)) then "" else ""

/-- `get_kali_tool_category` (app.py lines 370-403).  Python's
`not category_name or category_name not in arsenal_data` guard is the
`isEmpty`/lookup match; on a miss it returns the `Invalid category.` string
listing the dict keys, otherwise it renders the category report. -/
def get_kali_tool_category (category_name : String) : String :=
  let arsenal_data := get_kali_arsenal_data
  match (if category_name.isEmpty then none else arsenal_data.lookup category_name) with
  | none =>
      let available_categories := arsenal_data.map Prod.fst
      "Invalid category. Available categories: " ++ String.intercalate ", " available_categories
  | some category_info =>
      let bleeding_status :=
        if category_info.bleeding_edge_enhanced then "BLEEDING EDGE ENHANCED" else "STANDARD"
      let header :=
        "\n" ++ category_name.toUpper ++ " - " ++ bleeding_status
          ++ "\n\n**Category Statistics:**\n- **Tool Count**: " ++ toString category_info.count
          ++ "\n- **Description**: " ++ category_info.description
          ++ "\n- **Bleeding Edge**: "
          ++ (if category_info.bleeding_edge_enhanced then "Enhanced" else "Standard")
          ++ "\n\n**Available Tools:**\n"
      let toolLines :=
        String.join ((category_info.tools.enumFrom 1).map
          (fun p => fmt2d p.1 ++ ". " ++ p.2 ++ " " ++ bleeding_indicator p.2 ++ "\n"))
      header ++ toolLines
        ++ "\n**Usage in Bleeding Edge Scans:**\nThis category is automatically utilized in comprehensive security assessments with\nenhanced bleeding edge tools for maximum coverage and advanced threat detection.\n\nCreated by DarkDriftz - Revolutionary Cybersecurity Research Platform\n"

/-- `get_complete_kali_arsenal_info` (app.py lines 305-348): pure string
rendering of the arsenal overview (the `lru_cache` is irrelevant to a pure
function). -/
def get_complete_kali_arsenal_info : String :=
  let arsenal_data := get_kali_arsenal_data
  let total_tools := (arsenal_data.map (fun p => p.2.count)).sum
  let bleeding_edge_tools := BLEEDING_EDGE_CONFIG.additional_tools_count
  let arsenal_parts : List String :=
    [ "DARKDRIFTZ\x27S BLEEDING EDGE KALI LINUX ARSENAL - COMPLETE OVERVIEW\n\n",
      "**TOTAL ARSENAL: " ++ toString (total_tools + bleeding_edge_tools) ++ " CYBERSECURITY TOOLS**\n",
      "- **Standard Kali Tools**: " ++ toString total_tools ++ "\n",
      "- **Bleeding Edge Tools**: " ++ toString bleeding_edge_tools ++ "\n",
      "- **Security Categories**: " ++ toString arsenal_data.length ++ "\n",
      "- **Platform**: " ++ PLATFORM_TYPE ++ "\n\n",
      "**BLEEDING EDGE ENHANCEMENT:**\n",
      "- **Status**: " ++ (if BLEEDING_EDGE_CONFIG.enabled then "ACTIVE" else "INACTIVE") ++ "\n",
      "- **Priority**: " ++ BLEEDING_EDGE_CONFIG.priority.toUpper ++ "\n",
      "- **Repositories**: " ++ String.intercalate ", " BLEEDING_EDGE_CONFIG.repositories ++ "\n",
      "- **Auto-Sync**: Every " ++ (BLEEDING_EDGE_CONFIG.update_frequency.replace "_" " ") ++ "\n\n",
      "**CATEGORY BREAKDOWN:**\n" ]
  let category_parts : List String :=
    arsenal_data.flatMap (fun p =>
      let bleeding_status := if p.2.bleeding_edge_enhanced then " (Bleeding Edge Enhanced)" else ""
      [ "- **" ++ p.1 ++ "**: " ++ toString p.2.count ++ " tools" ++ bleeding_status ++ "\n",
        "  *" ++ p.2.description ++ "*\n" ])
  let final_parts : List String :=
    [ "\nMCP INTEGRATION:\n",
      "- **Protocol**: MCP " ++ MCP_VERSION ++ "\n",
      "- **Transport**: Server-Sent Events (SSE)\n",
      "- **Tools**: 7 comprehensive cybersecurity functions\n",
      "- **Real-time**: Live bleeding edge status and updates\n\n",
      "CREATED BY DARKDRIFTZ\n",
      "*The world\x27s most comprehensive bleeding edge cybersecurity research platform*\n" ]
  String.join (arsenal_parts ++ category_parts ++ final_parts)

/-- One property of a tool's `inputSchema.properties` mapping. -/
structure PropSchema where
  type : String
  description : String
deriving DecidableEq

/-- A tool's `inputSchema`: JSON-Schema-like object shape. -/
structure InputSchema where
  type : String
  properties : List (String × PropSchema)
  required : List String
deriving DecidableEq

/-- The value stored for a tool in `server_state["tools"]`:
description and input schema (the dict key is the tool name). -/
structure ToolDetails where
  description : String
  inputSchema : InputSchema
deriving DecidableEq

/-- `server_state["tools"]` after `_register_mcp_tools` (app.py lines 901-969):
the five registered tools, as an association list in registration
(= dict insertion) order. -/
def mcp_tools : List (String × ToolDetails) :=
  [ ("get_complete_kali_arsenal_info",
     { description := "Get complete information about DarkDriftz\x27s bleeding edge Kali Linux arsenal"
       inputSchema := { type := "object", properties := [], required := [] } }),
    ("get_kali_tool_category",
     { description := "Get detailed information about a specific Kali Linux tool category"
       inputSchema :=
         { type := "object"
           properties := [("category_name",
             { type := "string", description := "Name of the tool category" })]
           required := ["category_name"] } }),
    ("run_kali_security_scan",
     { description := "Run comprehensive security scan using bleeding edge enhanced tools"
       inputSchema :=
         { type := "object"
           properties :=
             [("target", { type := "string", description := "Target for security scanning" }),
              ("scan_type",
               { type := "string"
                 description := "Type of scan (reconnaissance, vulnerability, web, etc.)" })]
           required := ["target"] } }),
    ("get_bleeding_edge_status",
     { description := "Get comprehensive bleeding edge repository status and capabilities"
       inputSchema := { type := "object", properties := [], required := [] } }),
    ("generate_kali_security_report",
     { description := "Generate professional security assessment reports"
       inputSchema :=
         { type := "object"
           properties := [("report_type",
             { type := "string"
               description := "Type of report (comprehensive, executive, technical, compliance)" })]
           required := [] } }) ]

/-- The registered tool names, in registration order. -/
def mcp_tool_names : List String := mcp_tools.map Prod.fst

/-- Python `arguments.get(key, default)` on the `arguments` mapping of a
`tools/call` (parameter name to value; the five tools read only
string-valued arguments). -/
def argGetD (arguments : List (String × String)) (key default : String) : String :=
  (arguments.lookup key).getD default

/-- A JSON-RPC id: the code echoes strings and numbers alike. -/
inductive RpcId where
  | str (s : String)
  | num (n : Int)
deriving DecidableEq

/-- The `params` member of a decoded request: the dispatcher reads
`params.get("name", "")` and `params.get("arguments", {})`. -/
structure RpcParams where
  name : Option String
  arguments : Option (List (String × String))
deriving DecidableEq

/-- A decoded POST body that parsed as a JSON mapping: `id`, `method` and
`params` members may each be absent (the code reads them with `.get`). -/
structure RpcRequest where
  id : Option RpcId
  method : Option String
  params : Option RpcParams
deriving DecidableEq

/-- The body of one POST to `/mcp/sse`: either a payload on which
`await request.json()` / the subsequent `.get` calls raise (malformed JSON or
a non-mapping payload), carrying the exception text, or a decoded mapping. -/
inductive PostBody where
  | malformed (description : String)
  | valid (data : RpcRequest)

/-- One `content` item of a `tools/call` result. -/
structure ContentItem where
  type : String
  text : String
deriving DecidableEq

/-- The `result` member of a successful RPC response, one variant per
dispatch branch of `handle_mcp_request`. -/
inductive RpcResult where
  | toolsList (tools : List (String × ToolDetails))
  | toolCall (content : List ContentItem) ( isError : Bool)
  | initResult (protocolVersion : String) (capabilities : Capabilities) (serverInfo : ServerRecord)
deriving DecidableEq

/-- The `error` member of a failed RPC response. -/
structure RpcErrorObj where
  code : Int
  message : String
deriving DecidableEq

/-- Exactly one of `result` / `error` is present in an RpcResponse. -/
inductive RpcOutcome where
  | ok (r : RpcResult)
  | err (e : RpcErrorObj)
deriving DecidableEq

/-- An RPC response: echoed (or generated) id plus result-or-error. -/
structure RpcResponse where
  id : RpcId
  outcome : RpcOutcome
deriving DecidableEq

/-- The JSONResponse returned by the POST handler: HTTP status plus RPC body. -/
structure HttpResponse where
  status : Nat
  body : RpcResponse
deriving DecidableEq

/-- `_execute_tool_impl` (app.py lines 995-1017), parameterised over the
behaviour of its try-block body (the if/elif tool dispatch, which may raise):
a raised exception is caught and rendered as the diagnostic string
`Tool execution failed: <e>`. -/
def execute_tool_impl (dispatchBody : String → List (String × String) → Except String String)
    (tool_name : String) (arguments : List (String × String)) : String :=
  match dispatchBody tool_name arguments with
  | .ok result => result
  | .error e => "Tool execution failed: " ++ e

/-- Black-box environment for the three tool bodies whose output depends on
wall-clock time (and, for `get_bleeding_edge_status`, on Python's
process-randomised string hash): the spec treats individual tool contents as
out-of-scope opaque functions `name → (arguments) → text`. -/
structure Env where
  run_kali_security_scan : String → String → String
  get_bleeding_edge_status : String
  generate_kali_security_report : String → String

/-- The try-block body of `_execute_tool_impl`: the if/elif dispatch on the
tool name (app.py lines 997-1013), reading each argument with
`arguments.get(key, default)`; an unknown name yields the
`Unknown tool: <name>` string (not an exception). -/
def execute_tool_dispatch (env : Env) (tool_name : String)
    (arguments : List (String × String)) : Except String String :=
  if tool_name = "get_complete_kali_arsenal_info" then
    .ok get_complete_kali_arsenal_info
  else if tool_name = "get_kali_tool_category" then
    .ok (get_kali_tool_category (argGetD arguments "category_name" ""))
  else if tool_name = "run_kali_security_scan" then
    .ok (env.run_kali_security_scan (argGetD arguments "target" "example.com")
          (argGetD arguments "scan_type" "reconnaissance"))
  else if tool_name = "get_bleeding_edge_status" then
    .ok env.get_bleeding_edge_status
  else if tool_name = "generate_kali_security_report" then
    .ok (env.generate_kali_security_report (argGetD arguments "report_type" "comprehensive"))
  else
    .ok ("Unknown tool: " ++ tool_name)

/-- `_execute_tool` with the concrete dispatch body: the tracing wrapper is a
no-op pass-through around `_execute_tool_impl`. -/
def execute_tool (env : Env) (tool_name : String)
    (arguments : List (String × String)) : String :=
  execute_tool_impl (execute_tool_dispatch env) tool_name arguments

/-- `handle_mcp_request` (app.py lines 814-881), parameterised over the tool
execution function `exec` (`self._execute_tool`) and over `freshId`, the
`str(uuid.uuid4())` drawn when the request carries no `id`.  A body on which
decoding raises is answered with `-32603` / HTTP 500; a decoded mapping is
dispatched on `data.get("method", "")` and always answered with HTTP 200. -/
def handle_mcp_request (exec : String → List (String × String) → String)
    (freshId : String) (body : PostBody) : HttpResponse :=
  match body with
  | .malformed description =>
      { status := 500
        body := { id := RpcId.str "error"
                  outcome := .err { code := -32603, message := "Internal error: " ++ description } } }
  | .valid data =>
      let method := data.method.getD ""
      let params := data.params.getD { name := none, arguments := none }
      let request_id := data.id.getD (RpcId.str freshId)
      if method = "tools/list" then
        { status := 200, body := { id := request_id, outcome := .ok (.toolsList mcp_tools) } }
      else if method = "tools/call" then
        let tool_name := params.name.getD ""
        let arguments := params.arguments.getD []
        if tool_name ∈ mcp_tool_names then
          { status := 200
            body := { id := request_id
                      outcome := .ok (.toolCall [{ type := "text", text := exec tool_name arguments }] false) } }
        else
          { status := 200
            body := { id := request_id
                      outcome := .err { code := -32601, message := "Tool not found: " ++ tool_name } } }
      else if method = "initialize" then
        { status := 200
          body := { id := request_id
                    outcome := .ok (.initResult MCP_VERSION SERVER_INFO.capabilities SERVER_INFO) } }
      else
        { status := 200
          body := { id := request_id
                    outcome := .err { code := -32601, message := "Method not found: " ++ method } } }

/-- The JSON returned by the `/health` endpoint (app.py lines 883-899). -/
structure HealthResponse where
  status : String
  server : String
  version : String
  platform : String
  total_tools : Nat
  mcp_tools : Nat
  bleeding_edge : Bool
  timestamp : String
deriving DecidableEq

/-- `health_check` (app.py lines 883-899): `now` stands for
`datetime.now().isoformat()`.  Note `total_tools` adds the bleeding-edge
count on top of `get_total_tool_count()`, which already includes it. -/
def health_check (now : String) : HealthResponse :=
  let total_tools := get_total_tool_count
  let bleeding_edge_tools := BLEEDING_EDGE_CONFIG.additional_tools_count
  { status := "healthy"
    server := SERVER_INFO.name
    version := SERVER_INFO.version
    platform := PLATFORM_TYPE
    total_tools := total_tools + bleeding_edge_tools
    mcp_tools := mcp_tools.length
    bleeding_edge := BLEEDING_EDGE_CONFIG.enabled
    timestamp := now }

/-- One event yielded by the SSE `event_stream` generator
(app.py lines 786-800). -/
inductive SseEvent where
  | initEvent (protocolVersion : String) (capabilities : Capabilities) (serverInfo : ServerRecord)
  | heartbeat (timestamp : String)
deriving DecidableEq

/-- The SSE `event_stream` generator (app.py lines 786-800), run until
cancellation: it first yields the initialization event, then one heartbeat
per loop iteration; `heartbeat_times` lists the `datetime.now().isoformat()`
values observed by the iterations that ran before cancellation. -/
def event_stream (heartbeat_times : List String) : List SseEvent :=
  SseEvent.initEvent MCP_VERSION SERVER_INFO.capabilities SERVER_INFO
    :: heartbeat_times.map SseEvent.heartbeat

/-! ## Theorems settling the claims -/

/-- Claim C1: for every POST RPC request with method `tools/call` whose
`params.name` is not a registered tool name, the handler returns an RPC error
with `error.code == -32601` and message `Tool not found: <name>` (the
offending name embedded), and never an RPC-level success. -/
theorem C1_tool_not_found (exec : String → List (String × String) → String)
    (freshId : String) (req : RpcRequest)
    (hm : req.method = some "tools/call")
    (hn : (req.params.getD { name := none, arguments := none }).name.getD "" ∉ mcp_tool_names) :
    handle_mcp_request exec freshId (.valid req) =
      ⟨200, ⟨req.id.getD (RpcId.str freshId),
        .err ⟨-32601, "Tool not found: "
          ++ (req.params.getD { name := none, arguments := none }).name.getD ""⟩⟩⟩ := by
  obtain ⟨i, m, p⟩ := req
  dsimp only at hm hn ⊢
  subst hm
  simp [handle_mcp_request, hn]

/-- Witness for C1 at the concrete unregistered name `nonexistent_tool`. -/
theorem C1_tool_not_found_witness :
    ("nonexistent_tool" : String) ∉ mcp_tool_names ∧
    handle_mcp_request (fun _ _ => "") "uuid-1"
        (.valid { id := some (.str "abc"), method := some "tools/call"
                  params := some { name := some "nonexistent_tool", arguments := none } }) =
      { status := 200
        body := { id := .str "abc"
                  outcome := .err { code := -32601, message := "Tool not found: nonexistent_tool" } } } :=
  ⟨by decide, C1_tool_not_found _ _ _ rfl (by decide)⟩

/-- Claim C2: for every `tools/call` naming a registered tool, if the tool
handler raises (the dispatch body returns an exception), the dispatcher
returns a successful RPC response — content of type `text` whose text is the
diagnostic `Tool execution failed: <e>`, with `isError` false — never an
RPC-level error object. -/
theorem C2_handler_failure_is_success
    (dispatchBody : String → List (String × String) → Except String String)
    (freshId e : String) (req : RpcRequest)
    (hm : req.method = some "tools/call")
    (hreg : (req.params.getD { name := none, arguments := none }).name.getD "" ∈ mcp_tool_names)
    (hraise : dispatchBody ((req.params.getD { name := none, arguments := none }).name.getD "")
        ((req.params.getD { name := none, arguments := none }).arguments.getD []) = .error e) :
    handle_mcp_request (execute_tool_impl dispatchBody) freshId (.valid req) =
      ⟨200, ⟨req.id.getD (RpcId.str freshId),
        .ok (.toolCall [⟨"text", "Tool execution failed: " ++ e⟩] false)⟩⟩ := by
  obtain ⟨i, m, p⟩ := req
  dsimp only at hm hreg hraise ⊢
  subst hm
  simp [handle_mcp_request, execute_tool_impl, hreg, hraise]

/-- Witness for C2: a registered tool whose dispatch body raises `boom`. -/
theorem C2_handler_failure_is_success_witness :
    ("run_kali_security_scan" : String) ∈ mcp_tool_names ∧
    handle_mcp_request
        (execute_tool_impl (fun _ _ => .error "boom")) "uuid-2"
        (.valid { id := some (.num 7), method := some "tools/call"
                  params := some { name := some "run_kali_security_scan"
                                   arguments := some [("target", "example.com")] } }) =
      { status := 200
        body := { id := .num 7
                  outcome := .ok (.toolCall
                    [{ type := "text", text := "Tool execution failed: boom" }] false) } } :=
  ⟨by decide, C2_handler_failure_is_success _ _ _ _ rfl (by decide) rfl⟩

/-- Claim C3: every registered tool name occurs in exactly one `tools/list`
descriptor, `tools/list` returns the registry in registration order, and
`tools/call` with a registered name invokes the handler registered for that
name (the dispatch equations for all five tools), wrapping its text as
`content: [..type text..]` with `isError` false and `params.arguments`
defaulting to the empty mapping when absent. -/
theorem C3_registry_and_dispatch (env : Env) (freshId : String) (id? : Option RpcId)
    (n : String) (args : List (String × String)) (hn : n ∈ mcp_tool_names) :
    mcp_tool_names.count n = 1
    ∧ handle_mcp_request (execute_tool env) freshId
        (.valid ⟨id?, some "tools/list", none⟩)
      = ⟨200, ⟨id?.getD (.str freshId), .ok (.toolsList mcp_tools)⟩⟩
    ∧ handle_mcp_request (execute_tool env) freshId
        (.valid ⟨id?, some "tools/call", some ⟨some n, some args⟩⟩)
      = ⟨200, ⟨id?.getD (.str freshId),
          .ok (.toolCall [⟨"text", execute_tool env n args⟩] false)⟩⟩
    ∧ handle_mcp_request (execute_tool env) freshId
        (.valid ⟨id?, some "tools/call", some ⟨some n, none⟩⟩)
      = ⟨200, ⟨id?.getD (.str freshId),
          .ok (.toolCall [⟨"text", execute_tool env n []⟩] false)⟩⟩
    ∧ execute_tool env "get_complete_kali_arsenal_info" args = get_complete_kali_arsenal_info
    ∧ execute_tool env "get_kali_tool_category" args
        = get_kali_tool_category (argGetD args "category_name" "")
    ∧ execute_tool env "run_kali_security_scan" args
        = env.run_kali_security_scan (argGetD args "target" "example.com")
            (argGetD args "scan_type" "reconnaissance")
    ∧ execute_tool env "get_bleeding_edge_status" args = env.get_bleeding_edge_status
    ∧ execute_tool env "generate_kali_security_report" args
        = env.generate_kali_security_report (argGetD args "report_type" "comprehensive") := by
  refine ⟨?_, rfl, ?_, ?_, rfl, rfl, rfl, rfl, rfl⟩
  · exact List.count_eq_one_of_mem (by decide) hn
  · simp [handle_mcp_request, hn]
  · simp [handle_mcp_request, hn]

/-- Witness for C3 at the registered name `get_kali_tool_category`. -/
theorem C3_registry_and_dispatch_witness :
    mcp_tool_names.count "get_kali_tool_category" = 1
    ∧ handle_mcp_request (execute_tool ⟨fun _ _ => "", "", fun _ => ""⟩) "u3"
        (.valid ⟨some (.str "abc"), some "tools/call",
          some ⟨some "get_kali_tool_category", none⟩⟩)
      = ⟨200, ⟨.str "abc",
          .ok (.toolCall [⟨"text",
            execute_tool ⟨fun _ _ => "", "", fun _ => ""⟩ "get_kali_tool_category" []⟩] false)⟩⟩ :=
  ⟨(C3_registry_and_dispatch ⟨fun _ _ => "", "", fun _ => ""⟩ "u3" (some (.str "abc"))
      "get_kali_tool_category" [] (by decide)).1,
   (C3_registry_and_dispatch ⟨fun _ _ => "", "", fun _ => ""⟩ "u3" (some (.str "abc"))
      "get_kali_tool_category" [] (by decide)).2.2.2.1⟩

/-- Counterexample to claim C4 as stated: a decoded mapping missing `method`
(for example the payload `{"id": "abc"}`) is answered with error code
`-32601` (`Method not found: `) at HTTP status 200 — not with `-32603` at
HTTP 500 as the claim asserts for payloads missing `method`. -/
theorem C4_counterexample :
    handle_mcp_request (fun _ _ => "") "gen-uuid"
        (.valid ⟨some (.str "abc"), none, none⟩)
      = ⟨200, ⟨.str "abc", .err ⟨-32601, "Method not found: "⟩⟩⟩ := by
  simp [handle_mcp_request]

/-- Claim C4 (amended): a POST body on which decoding raises (malformed JSON
or a non-mapping payload) is answered with `-32603` / `Internal error:
<description>` at HTTP 500; a decoded mapping missing `method` is instead
treated as method `""` and answered with `-32601` / `Method not found: ` at
HTTP 200. -/
theorem C4_parse_failure (exec : String → List (String × String) → String)
    (freshId description : String) (id? : Option RpcId) (p : Option RpcParams) :
    handle_mcp_request exec freshId (.malformed description)
      = ⟨500, ⟨.str "error", .err ⟨-32603, "Internal error: " ++ description⟩⟩⟩
    ∧ handle_mcp_request exec freshId (.valid ⟨id?, none, p⟩)
      = ⟨200, ⟨id?.getD (.str freshId), .err ⟨-32601, "Method not found: "⟩⟩⟩ := by
  refine ⟨rfl, ?_⟩
  simp [handle_mcp_request]

/-- Counterexample to claim C5 as stated: a structurally valid request with
no `id` (a notification) does not go unanswered — the handler still returns a
full RpcResponse whose `id` is the freshly generated UUID string. -/
theorem C5_counterexample :
    handle_mcp_request (fun _ _ => "") "9a1c2d3e-generated-uuid"
        (.valid ⟨none, some "initialize", none⟩)
      = ⟨200, ⟨.str "9a1c2d3e-generated-uuid",
          .ok (.initResult MCP_VERSION SERVER_INFO.capabilities SERVER_INFO)⟩⟩ := by
  simp [handle_mcp_request]

/-- Claim C5 (amended): for every POST request with no `id` field, the
handler performs the requested action but still produces a response body,
whose `id` is the freshly drawn `str(uuid.uuid4())` value. -/
theorem C5_fresh_id (exec : String → List (String × String) → String)
    (freshId : String) (req : RpcRequest) (hid : req.id = none) :
    ((handle_mcp_request exec freshId (.valid req)).body).id = RpcId.str freshId := by
  obtain ⟨i, m, p⟩ := req
  dsimp only at hid
  subst hid
  dsimp only [handle_mcp_request]
  repeat' split
  all_goals rfl

/-- Witness for C5 (amended) at a concrete id-less request. -/
theorem C5_fresh_id_witness :
    ((handle_mcp_request (fun _ _ => "") "u5"
        (.valid ⟨none, some "tools/list", none⟩)).body).id = RpcId.str "u5" :=
  C5_fresh_id _ _ _ rfl

/-- Claim C6: every structurally valid POST request whose method is none of
`initialize`, `tools/list`, `tools/call` is answered with error code
`-32601` and message `Method not found: <method>`, at HTTP status 200. -/
theorem C6_method_not_found (exec : String → List (String × String) → String)
    (freshId m : String) (req : RpcRequest) (hm : req.method = some m)
    (h1 : m ≠ "initialize") (h2 : m ≠ "tools/list") (h3 : m ≠ "tools/call") :
    handle_mcp_request exec freshId (.valid req)
      = ⟨200, ⟨req.id.getD (.str freshId), .err ⟨-32601, "Method not found: " ++ m⟩⟩⟩ := by
  obtain ⟨i, mm, p⟩ := req
  dsimp only at hm ⊢
  subst hm
  simp [handle_mcp_request, h1, h2, h3]

/-- Witness for C6 at the concrete unknown method `foo/bar`. -/
theorem C6_method_not_found_witness :
    handle_mcp_request (fun _ _ => "") "u6"
        (.valid ⟨some (.num 3), some "foo/bar", none⟩)
      = ⟨200, ⟨.num 3, .err ⟨-32601, "Method not found: foo/bar"⟩⟩⟩ :=
  C6_method_not_found _ _ _ _ rfl (by decide) (by decide) (by decide)

/-- Claim C7: a structurally valid POST request carrying `id = "abc"` is
answered with an RpcResponse whose `id` is `"abc"`, through every dispatch
branch (result or error alike). -/
theorem C7_id_roundtrip (exec : String → List (String × String) → String)
    (freshId : String) (req : RpcRequest) (hid : req.id = some (.str "abc")) :
    ((handle_mcp_request exec freshId (.valid req)).body).id = RpcId.str "abc" := by
  obtain ⟨i, m, p⟩ := req
  dsimp only at hid
  subst hid
  dsimp only [handle_mcp_request]
  repeat' split
  all_goals rfl

/-- Witness for C7: the id `"abc"` round-trips through an error branch. -/
theorem C7_id_roundtrip_witness :
    ((handle_mcp_request (fun _ _ => "") "u7"
        (.valid ⟨some (.str "abc"), some "no/such", none⟩)).body).id = RpcId.str "abc" :=
  C7_id_roundtrip _ _ _ rfl

/-- Counterexample to claim C8 as stated: at any query time, the health
endpoint reports `total_tools = 861` (a static arsenal aggregate) while the
live registry holds 5 tools — `total_tools` does not equal the registry
count. -/
theorem C8_counterexample :
    (health_check "2025-06-01T12:00:00").total_tools = 861
    ∧ mcp_tools.length = 5
    ∧ (health_check "2025-06-01T12:00:00").total_tools ≠ mcp_tools.length :=
  ⟨rfl, rfl, by decide⟩

/-- Claim C8 (amended): `total_tools` is the process-constant static arsenal
aggregate `get_total_tool_count() + 150` (= 861, the bleeding-edge count
added twice), independent of the live registry, whose count is exposed as
`mcp_tools`; both are constant over query time, hence never decrease. -/
theorem C8_total_tools_constant (t1 t2 : String) :
    (health_check t1).total_tools
        = get_total_tool_count + BLEEDING_EDGE_CONFIG.additional_tools_count
    ∧ (health_check t1).total_tools = 861
    ∧ (health_check t1).mcp_tools = mcp_tools.length
    ∧ (health_check t1).total_tools = (health_check t2).total_tools
    ∧ (health_check t2).mcp_tools = (health_check t1).mcp_tools :=
  ⟨rfl, rfl, rfl, rfl, rfl⟩

/-- Claim C9: in every streaming SSE session the first event emitted is the
initialization event (carrying protocol version, capabilities and server
identity), and it strictly precedes every heartbeat event of the session. -/
theorem C9_sse_ordering (heartbeat_times : List String) :
    (event_stream heartbeat_times).head?
        = some (.initEvent MCP_VERSION SERVER_INFO.capabilities SERVER_INFO)
    ∧ ∀ i t, (event_stream heartbeat_times)[i]? = some (.heartbeat t) → 0 < i := by
  refine ⟨rfl, ?_⟩
  intro i t h
  cases i with
  | zero => simp [event_stream] at h
  | succ k => exact Nat.succ_pos k

/-- Witness for C9 on a one-heartbeat session. -/
theorem C9_sse_ordering_witness :
    (event_stream ["2025-06-01T12:00:30"]).head?
        = some (.initEvent MCP_VERSION SERVER_INFO.capabilities SERVER_INFO)
    ∧ 0 < 1 :=
  ⟨(C9_sse_ordering ["2025-06-01T12:00:30"]).1,
   (C9_sse_ordering ["2025-06-01T12:00:30"]).2 1 "2025-06-01T12:00:30" rfl⟩

set_option maxRecDepth 8192 in
/-- Claim C10: for every `category_name` that is empty or not an arsenal key,
`get_kali_tool_category` returns (never raises) the string
`Invalid category. Available categories: <all keys>` — which begins with
`Invalid category.` and lists every category name — and through `tools/call`
this is delivered as a successful response with `isError` false. -/
theorem C10_invalid_category (env : Env) (freshId : String) (id? : Option RpcId)
    (c : String) (hc : c = "" ∨ get_kali_arsenal_data.lookup c = none) :
    get_kali_tool_category c
        = "Invalid category. Available categories: "
            ++ String.intercalate ", " (get_kali_arsenal_data.map Prod.fst)
    ∧ (∃ rest, get_kali_tool_category c = "Invalid category." ++ rest)
    ∧ handle_mcp_request (execute_tool env) freshId
        (.valid ⟨id?, some "tools/call",
          some ⟨some "get_kali_tool_category", some [("category_name", c)]⟩⟩)
      = ⟨200, ⟨id?.getD (.str freshId),
          .ok (.toolCall [⟨"text", get_kali_tool_category c⟩] false)⟩⟩ := by
  have hnone : (if c.isEmpty then none else get_kali_arsenal_data.lookup c)
      = (none : Option CategoryEntry) := by
    rcases hc with rfl | h
    · rfl
    · by_cases hce : c.isEmpty
      · simp [hce]
      · simp [hce, h]
  have hval : get_kali_tool_category c
      = "Invalid category. Available categories: "
          ++ String.intercalate ", " (get_kali_arsenal_data.map Prod.fst) := by
    unfold get_kali_tool_category
    dsimp only
    rw [hnone]
  refine ⟨hval, ?_, ?_⟩
  · refine ⟨" Available categories: "
      ++ String.intercalate ", " (get_kali_arsenal_data.map Prod.fst), ?_⟩
    rw [hval, ← String.append_assoc]
    congr 1
  · simp +decide [handle_mcp_request, execute_tool, execute_tool_impl,
      execute_tool_dispatch, argGetD]

/-- Witness for C10 at the empty category name. -/
theorem C10_invalid_category_witness :
    get_kali_tool_category ""
        = "Invalid category. Available categories: "
            ++ String.intercalate ", " (get_kali_arsenal_data.map Prod.fst)
    ∧ (∃ rest, get_kali_tool_category "" = "Invalid category." ++ rest) :=
  ⟨(C10_invalid_category ⟨fun _ _ => "", "", fun _ => ""⟩ "u10" none "" (Or.inl rfl)).1,
   (C10_invalid_category ⟨fun _ _ => "", "", fun _ => ""⟩ "u10" none "" (Or.inl rfl)).2.1⟩

end KaliMCP

